import Mathlib

/-!
Verification of the queue-api repository: a shallow embedding, in Lean 4, of
the queue abstraction layer (error classifier, backend selector, memory
backend, RabbitMQ consume callback, HTTP controller, and the SQS backend's
queue-resolution protocol), with theorems settling the specification claims.

Each definition is translated from the TypeScript source file named in its
doc comment.  JavaScript runtime behaviour that matters to the claims
(property access on `null`/`undefined` throwing a `TypeError`, `||`
short-circuiting, string truthiness, `Map.get`/`Map.set`) is modelled
explicitly.
-/

set_option autoImplicit false

namespace QueueApi

/-! ## JavaScript error values

The error classifier (src/queue/utils/common.ts) receives an `unknown`
value.  We model the values that matter to its behaviour: `null`,
`undefined`, primitives (on which property access yields `undefined`
without throwing), and error-like objects with the optional fields the
classifier reads (`name`, `code`, `Code`, `message`, `$metadata`). -/

/-- The `$metadata` object of an AWS SDK error: may carry `httpStatusCode`. -/
structure MetaData where
  httpStatusCode : Option Nat
  deriving DecidableEq, Repr

/-- An error-like JavaScript object restricted to the fields read by the
classifier: `name?`, `code?`, `Code?`, `message?`, `$metadata?`. -/
structure ErrObj where
  name : Option String
  code : Option String
  Code : Option String
  message : Option String
  metadata : Option MetaData
  deriving DecidableEq, Repr

/-- A JavaScript value as seen by code that probes error shapes:
`null`, `undefined`, a primitive (string/number/boolean, boxed on property
access, every probed field reads as `undefined`), or an error-like object. -/
inductive JsVal where
  | jsNull
  | jsUndefined
  | prim (s : String)
  | obj (e : ErrObj)
  deriving DecidableEq, Repr

/-- `v.name` in JavaScript: throws `TypeError` when `v` is `null` or
`undefined` (modelled as `Except.error ()`), reads as `undefined`
(`none`) on primitives. -/
def jsGetName : JsVal → Except Unit (Option String)
  | .jsNull => .error ()
  | .jsUndefined => .error ()
  | .prim _ => .ok none
  | .obj e => .ok e.name

/-- `v.code` (lower-case field), same throwing discipline as `jsGetName`. -/
def jsGetCode : JsVal → Except Unit (Option String)
  | .jsNull => .error ()
  | .jsUndefined => .error ()
  | .prim _ => .ok none
  | .obj e => .ok e.code

/-- `v.Code` (capitalised field used by AWS SQS errors). -/
def jsGetCodeC : JsVal → Except Unit (Option String)
  | .jsNull => .error ()
  | .jsUndefined => .error ()
  | .prim _ => .ok none
  | .obj e => .ok e.Code

/-- `v.message`, same throwing discipline. -/
def jsGetMessage : JsVal → Except Unit (Option String)
  | .jsNull => .error ()
  | .jsUndefined => .error ()
  | .prim _ => .ok none
  | .obj e => .ok e.message

/-- `v?.$metadata?.httpStatusCode`: fully optional-chained in the source,
hence total (never throws). -/
def jsGetMetaStatus : JsVal → Option Nat
  | .obj e => match e.metadata with
    | some m => m.httpStatusCode
    | none => none
  | _ => none

/-- Substring scan: does `pat` occur (contiguously) in the character list? -/
def subIncl (pat : List Char) : List Char → Bool
  | [] => pat.isEmpty
  | c :: rest => pat.isPrefixOf (c :: rest) || subIncl pat rest

/-- `s.includes(pat)` on JavaScript strings: substring containment. -/
def strIncludes (s pat : String) : Bool :=
  subIncl pat.toList s.toList

/-- `m?.includes(pat)` where `m` is an optional string: `undefined` (absent
message) is falsy in the `||` chain, modelled as `false`. -/
def optIncludes (m : Option String) (pat : String) : Bool :=
  match m with
  | none => false
  | some s => strIncludes s pat

/-! ## Error classifier (src/queue/utils/common.ts)

The two predicates below are translated line by line from
`isTimoutError` (sic) and `isQueueMissing`.  The first property access in
each (`error.name`) is not optional-chained, so a `null`/`undefined` input
throws; this is modelled by the `Except Unit` result. -/

/-- `isTimoutError` from src/queue/utils/common.ts (the misspelling is the
source's):
`error.name === 'TimeoutError' || error.message?.includes('inactivity') ||
 error.code === 'ECONNRESET' || error.code === 'ETIMEDOUT'`. -/
def isTimoutError (err : JsVal) : Except Unit Bool := do
  let n ← jsGetName err
  let m ← jsGetMessage err
  let c ← jsGetCode err
  pure (n == some "TimeoutError" || optIncludes m "inactivity" ||
    c == some "ECONNRESET" || c == some "ETIMEDOUT")

/-- `isQueueMissing` from src/queue/utils/common.ts:
`error.name === 'QueueDoesNotExist' ||
 error.Code === 'AWS.SimpleQueueService.NonExistentQueue' ||
 error.message?.includes('does not exist') ||
 error?.$metadata?.httpStatusCode === 400`. -/
def isQueueMissing (err : JsVal) : Except Unit Bool := do
  let n ← jsGetName err
  let c ← jsGetCodeC err
  let m ← jsGetMessage err
  pure (n == some "QueueDoesNotExist" ||
    c == some "AWS.SimpleQueueService.NonExistentQueue" ||
    optIncludes m "does not exist" ||
    jsGetMetaStatus err == some 400)

/-! ## Backend selector

Two factory variants exist in the repository: the provider factory in
src/queue/queue.module.ts compares lower-cased strings directly; the
variant module (src/unnamed/part_003) routes through
`validateAndGetQueueProvider` from src/queue/utils/common.ts. -/

/-- The `AllowedQueueProviders` enum from src/queue/interfaces/common.ts
(values 'sqs', 'rabbitmq', 'local'). -/
inductive AllowedQueueProviders where
  | AWS_SQS
  | RABBITMQ
  | LOCAL
  deriving DecidableEq, Repr

/-- `String.prototype.toLowerCase()` of the JavaScript runtime (ASCII
case folding, which covers every recognized provider name). -/
def jsToLower (s : String) : String :=
  ⟨s.data.map Char.toLower⟩

/-- `validateAndGetQueueProvider` from src/queue/utils/common.ts: a switch
on the provider string against the enum values (`case` in a JavaScript
switch is an equality test), defaulting to `LOCAL` (this also covers
`undefined`). -/
def validateAndGetQueueProvider (provider : Option String) : AllowedQueueProviders :=
  if provider = some "sqs" then .AWS_SQS
  else if provider = some "rabbitmq" then .RABBITMQ
  else .LOCAL

/-- The three concrete backend instances the factory can return. -/
inductive Backend where
  | sqs
  | rabbit
  | memory
  deriving DecidableEq, Repr

/-- The `useFactory` of src/queue/queue.module.ts:
`const provider = (config.get('QUEUE_PROVIDER') ?? 'memory').toLowerCase();
 if (provider === 'sqs') return sqs;
 if (provider === 'rabbitmq') return rabbit;
 return memory;`. -/
def selectBackend (cfgProvider : Option String) : Backend :=
  let provider := jsToLower (cfgProvider.getD "memory")
  if provider = "sqs" then .sqs
  else if provider = "rabbitmq" then .rabbit
  else .memory

/-- The `useFactory` of the variant module (src/unnamed/part_003):
`validateAndGetQueueProvider(config.get('QUEUE_PROVIDER')?.toLowerCase())`
then a match on the enum value. -/
def selectBackendValidated (cfgProvider : Option String) : Backend :=
  match validateAndGetQueueProvider (cfgProvider.map jsToLower) with
  | .AWS_SQS => .sqs
  | .RABBITMQ => .rabbit
  | .LOCAL => .memory

/-! ## Association-list model of a JavaScript `Map`

`Map.get` returns the value for a key or `undefined`; `Map.set` replaces
the value of an existing key in place or appends a new entry.  Keys are
unique, so replace-first is faithful. -/

/-- `Map.get k`. -/
def mapGet {α : Type} : List (String × α) → String → Option α
  | [], _ => none
  | (k0, v0) :: rest, k => if k0 = k then some v0 else mapGet rest k

/-- `Map.set k v`. -/
def mapSet {α : Type} : List (String × α) → String → α → List (String × α)
  | [], k, v => [(k, v)]
  | (k0, v0) :: rest, k, v =>
    if k0 = k then (k, v) :: rest else (k0, v0) :: mapSet rest k v

/-! ## Result and error shapes shared across the layer -/

/-- `PublishResponse` / `SubscribeResponse` from src/queue/queue.interface:
a record with a feedback `message`. -/
structure OpResponse where
  message : String
  deriving DecidableEq, Repr

/-- An error crossing the service/controller boundary: either a Nest
`HttpException` (with HTTP status and message; `NotFoundException` is
status 404, `InternalServerErrorException` is status 500) or a plain
non-HTTP error (`name`, `message`). -/
inductive SvcError where
  | httpException (status : Nat) (message : String)
  | plain (name : String) (message : String)
  deriving DecidableEq, Repr

/-- The `error instanceof HttpException` test used by the controller. -/
def isHttpExceptionInst : SvcError → Bool
  | .httpException _ _ => true
  | .plain _ _ => false

/-! ## Memory backend (src/queue/implementations/memory.queue.service.ts)

Handlers are async functions; we model each registered handler by an
identifier (`Nat`), keep the registration map `queue name → ordered list
of handler ids`, and let an `outcome` oracle say whether a given handler's
returned promise resolves (`true`) or rejects (`false`).  A rejection is
consumed by the `.catch(...)` the source attaches, so it is observable
only in the invocation record, never in the publish result. -/

/-- The `subscribers` map state of `MemoryQueueService`. -/
structure MemoryState where
  subscribers : List (String × List Nat)
  deriving DecidableEq, Repr

/-- A fresh `MemoryQueueService` (`private subscribers = new Map()`). -/
def MemoryState.init : MemoryState := ⟨[]⟩

/-- One handler invocation performed by `publish`: which handler, the exact
value it was called with, and whether its promise resolved. -/
structure Invocation (μ : Type) where
  handler : Nat
  arg : μ
  resolved : Bool
  deriving DecidableEq, Repr

/-- Result of `MemoryQueueService.publish`: the call's outcome, the state
after the call, and the ordered record of handler invocations. -/
structure MemPublishResult (μ : Type) where
  result : Except SvcError OpResponse
  state : MemoryState
  invocations : List (Invocation μ)
  deriving Repr

/-- `MemoryQueueService.publish` (src/queue/implementations/memory.queue.service.ts):
`const handlers = this.subscribers.get(queueName) || [];
 if (handlers.length === 0) throw new NotFoundException('Queue not found');
 for (const handler of handlers) handler(message).catch(err => log);
 return { message: 'Message published in queue' };`
The throw is modelled as an error result; the fire-and-forget loop invokes
every handler with `message` in registration order, `.catch` swallowing
each rejection. -/
def memPublish {μ : Type} (st : MemoryState) (queueName : String) (message : μ)
    (outcome : Nat → Bool) : MemPublishResult μ :=
  let handlers := (mapGet st.subscribers queueName).getD []
  if handlers.length = 0 then
    ⟨.error (.httpException 404 "Queue not found"), st, []⟩
  else
    ⟨.ok ⟨"Message published in queue"⟩, st,
      handlers.map fun h => ⟨h, message, outcome h⟩⟩

/-- `MemoryQueueService.subscribe`:
`const handlers = this.subscribers.get(queueName) || [];
 handlers.push(handler); this.subscribers.set(queueName, handlers);
 return { message: feedback };`. -/
def memSubscribe (st : MemoryState) (queueName : String) (handler : Nat) :
    Except SvcError OpResponse × MemoryState :=
  let handlers := (mapGet st.subscribers queueName).getD []
  (.ok ⟨"Subscribed handler to memory queue [" ++ queueName ++ "]"⟩,
    ⟨mapSet st.subscribers queueName (handlers ++ [handler])⟩)

/-! ## HTTP controller (src/queue/queue.controller.ts and src/unnamed/part_002)

`QueueService.publish`/`QueueService.subscribe` are `async`, so a call to
them never throws synchronously: it returns a promise that settles to a
value or a rejection.  We model the callee's behaviour as a `CallOutcome`:
either a synchronous throw (impossible for an async callee, kept so the
catch clause is represented faithfully) or a returned promise. -/

/-- Outcome of calling the service method from the controller: a
synchronous throw, or a returned promise settling to `r`. -/
inductive CallOutcome (α : Type) where
  | syncThrow (e : SvcError)
  | promise (r : Except SvcError α)

/-- Calling an `async` JavaScript function never throws synchronously; its
result is always a promise. -/
def asyncCall {α : Type} (r : Except SvcError α) : CallOutcome α := .promise r

/-- `QueueController.publishMessage` from src/queue/queue.controller.ts —
the method is NOT `async` and does NOT `await`:
`try { return this.queueService.publish(message); } catch (error) { ... }`.
The `catch` can only intercept a synchronous throw; a returned promise is
passed through as-is, so its rejection bypasses the conversion. -/
def publishMessage (call : CallOutcome OpResponse) : Except SvcError OpResponse :=
  match call with
  | .promise r => r
  | .syncThrow e =>
    if isHttpExceptionInst e then .error e
    else .error (.httpException 500 "Failed to publish message to queue")

/-- `QueueController.subscribeToQueue` from src/queue/queue.controller.ts:
same non-awaiting shape (its fallback message is the publish one — the
source reuses the string). -/
def subscribeToQueue (call : CallOutcome OpResponse) : Except SvcError OpResponse :=
  match call with
  | .promise r => r
  | .syncThrow e =>
    if isHttpExceptionInst e then .error e
    else .error (.httpException 500 "Failed to publish message to queue")

/-- `QueueController.publishMessage` from the variant controller
(src/unnamed/part_002), which IS `async` and awaits inside the `try`:
`try { return await this.queueService.publish(message); } catch ...` —
here a rejected promise is caught and converted. -/
def publishMessageAwaited (call : CallOutcome OpResponse) : Except SvcError OpResponse :=
  match call with
  | .promise (.ok v) => .ok v
  | .promise (.error e) =>
    if isHttpExceptionInst e then .error e
    else .error (.httpException 500 "Failed to publish message to queue")
  | .syncThrow e =>
    if isHttpExceptionInst e then .error e
    else .error (.httpException 500 "Failed to publish message to queue")

/-- `QueueController.subscribeToQueue` from src/unnamed/part_002 (awaited;
its fallback message is the subscribe-specific one). -/
def subscribeToQueueAwaited (call : CallOutcome OpResponse) : Except SvcError OpResponse :=
  match call with
  | .promise (.ok v) => .ok v
  | .promise (.error e) =>
    if isHttpExceptionInst e then .error e
    else .error (.httpException 500 "Failed to subscribe to queue")
  | .syncThrow e =>
    if isHttpExceptionInst e then .error e
    else .error (.httpException 500 "Failed to subscribe to queue")

/-! ## RabbitMQ consume callback
(src/queue/implementations/rabbitmq.queue.service.ts, subscribe)

`channel.consume(queueName, (msg) => { if (!msg) return;
  void (async () => {
    try { const body = JSON.parse(msg.content.toString());
          await handler(body); channel.ack(msg); }
    catch (err) { log; channel.nack(msg, false, false); } })(); })`
`JSON.parse` runs INSIDE the try, so a parse failure jumps straight to the
`catch` and nacks without ever invoking `handler`.  `JSON.parse` is
runtime-provided; it is a parameter `parse` (returning `none` when it
would throw).  `handler` is a parameter returning whether its promise
resolves. -/

/-- Channel acknowledgement action taken for one delivery. -/
inductive AckAction where
  | ack
  | nackNoRequeue
  deriving DecidableEq, Repr

/-- Observable outcome of the consume callback on one delivery: the
acknowledgement action (none when the callback returned early on a null
message) and the value the handler was invoked with (none when the
handler was never invoked). -/
structure ConsumeOutcome (α : Type) where
  action : Option AckAction
  invokedWith : Option α
  deriving DecidableEq, Repr

/-- The consume callback of `RabbitMqQueueService.subscribe`, identical in
both copies of the file. -/
def consumeCallback {α : Type} (parse : String → Option α) (handler : α → Bool)
    (msg : Option String) : ConsumeOutcome α :=
  match msg with
  | none => ⟨none, none⟩
  | some content =>
    match parse content with
    | none => ⟨some .nackNoRequeue, none⟩
    | some body =>
      if handler body then ⟨some .ack, some body⟩
      else ⟨some .nackNoRequeue, some body⟩

/-! ## SQS backend (src/queue/implementations/sqs.queue.service.ts)

The transport is modelled as an oracle `Nat → SqsResp` giving the response
(or rejection) of each successive `client.send` call; a counter indexes
into it and every issued request is logged.  `this.client` has type
`Option Unit`: `none` models the undefined field the constructor leaves
behind, and `this.client.send(...)` on `none` throws a `TypeError` and
issues no request. -/

/-- The SQS commands the service constructs (with the literal parameters
from the source). -/
inductive SqsCommand where
  | getQueueUrlCmd (queueName : String)
  | createQueueCmd (queueName : String) (visibilityTimeout : String)
      (messageRetentionPeriod : String)
  | sendMessageCmd (queueUrl : String) (messageBody : String)
  deriving DecidableEq, Repr

/-- A transport response: a payload whose `QueueUrl` field is `u` (absent
fields and non-url payloads read as `none` after destructuring), a plain
success, or a rejection carrying a JavaScript error value. -/
inductive SqsResp where
  | urlR (u : Option String)
  | sendOk
  | throwE (e : JsVal)
  deriving DecidableEq, Repr

/-- `const { QueueUrl } = response` — destructuring; any response without
the field gives `undefined`. -/
def respQueueUrl : SqsResp → Option String
  | .urlR u => u
  | _ => none

/-- JavaScript string truthiness applied to an optional url:
`undefined` and the empty string are falsy.  Returns the url exactly when
truthy. -/
def truthyUrl : Option String → Option String
  | some s => if s = "" then none else some s
  | none => none

/-- The `TypeError` raised by `this.client.send(...)` when `this.client`
is `undefined`. -/
def typeErrorUndefinedSend : JsVal :=
  .obj ⟨some "TypeError", none, none,
    some "Cannot read properties of undefined (reading send)", none⟩

/-- `new Error(msg)`: an error object with name `Error`. -/
def jsError (msg : String) : JsVal :=
  .obj ⟨some "Error", none, none, some msg, none⟩

/-- The `TypeError` raised when `isQueueMissing` itself dereferences a
`null`/`undefined` caught value inside the catch block. -/
def typeErrorNullProp : JsVal :=
  .obj ⟨some "TypeError", none, none,
    some "Cannot read properties of null", none⟩

/-- `v?.name`: optional-chained, total. -/
def jsSafeName : JsVal → Option String
  | .obj e => e.name
  | _ => none

/-- The two pieces of instance state of `SqsQueueService`:
`private readonly client: SQSClient` (modelled by presence) and
`private readonly queueUrls = new Map<string, string>()`. -/
structure SqsState where
  client : Option Unit
  queueUrls : List (String × String)
  deriving DecidableEq, Repr

/-- Outcome of one `this.client.send(cmd)`: its settled result, the next
oracle index, and the requests actually issued (none when the undefined
client throws before reaching the transport). -/
structure SendOutcome where
  res : Except JsVal SqsResp
  next : Nat
  log : List SqsCommand
  deriving Repr

/-- `await this.client.send(cmd)` against the oracle. -/
def clientSend (client : Option Unit) (oracle : Nat → SqsResp) (k : Nat)
    (cmd : SqsCommand) : SendOutcome :=
  match client with
  | none => ⟨.error typeErrorUndefinedSend, k, []⟩
  | some _ =>
    match oracle k with
    | .throwE e => ⟨.error e, k + 1, [cmd]⟩
    | r => ⟨.ok r, k + 1, [cmd]⟩

/-- Result of `getQueueUrl`: the resolved url or propagated error, the
state after the call, the next oracle index, and the issued requests. -/
structure GquResult where
  result : Except JsVal String
  state : SqsState
  counter : Nat
  requests : List SqsCommand
  deriving Repr

namespace SqsQueueService

/-- `this.queueUrls.set(queueName, url)`. -/
def cacheSet (st : SqsState) (queueName url : String) : SqsState :=
  { st with queueUrls := mapSet st.queueUrls queueName url }

/-- The inner catch of `getQueueUrl` (source lines 140–155): on a
creation failure named `QueueAlreadyExists`, re-resolve by name and cache;
a falsy re-resolved url falls through to `throw createError`; any other
creation failure is re-thrown; an exception raised by the re-resolution
itself propagates in place of `createError`. -/
def gquCreateCatch (oracle : Nat → SqsResp) (st : SqsState) (queueName : String)
    (k : Nat) (log : List SqsCommand) (createError : JsVal) : GquResult :=
  if jsSafeName createError = some "QueueAlreadyExists" then
    match clientSend st.client oracle k (.getQueueUrlCmd queueName) with
    | ⟨.error e3, n3, log3⟩ => ⟨.error e3, st, n3, log ++ log3⟩
    | ⟨.ok resp3, n3, log3⟩ =>
      match truthyUrl (respQueueUrl resp3) with
      | some u => ⟨.ok u, cacheSet st queueName u, n3, log ++ log3⟩
      | none => ⟨.error createError, st, n3, log ++ log3⟩
  else ⟨.error createError, st, k, log⟩

/-- The outer catch of `getQueueUrl` (source lines 106–156): classify the
caught error with `isQueueMissing`; when the classifier itself throws
(null/undefined error value) that `TypeError` propagates; when the error
is not queue-missing it is re-thrown; otherwise create the queue with the
fixed attributes (visibility timeout 60, retention 345600 = 4 days), cache
a truthy returned url, and route creation failures — including the
in-try `throw new Error('Failed to create queue: ...')` on a falsy
url — to the inner catch. -/
def gquCatch (oracle : Nat → SqsResp) (st : SqsState) (queueName : String)
    (k : Nat) (log : List SqsCommand) (e : JsVal) : GquResult :=
  match isQueueMissing e with
  | .error _ => ⟨.error typeErrorNullProp, st, k, log⟩
  | .ok false => ⟨.error e, st, k, log⟩
  | .ok true =>
    match clientSend st.client oracle k
      (.createQueueCmd queueName "60" "345600") with
    | ⟨.error ce, n2, log2⟩ =>
      gquCreateCatch oracle st queueName n2 (log ++ log2) ce
    | ⟨.ok resp2, n2, log2⟩ =>
      match truthyUrl (respQueueUrl resp2) with
      | some u => ⟨.ok u, cacheSet st queueName u, n2, log ++ log2⟩
      | none =>
        gquCreateCatch oracle st queueName n2 (log ++ log2)
          (jsError "Failed to create queue: no QueueUrl returned")

/-- The try block of `getQueueUrl` (source lines 96–105): resolve by name;
a truthy `QueueUrl` is cached and returned; a falsy one raises
`new Error('QueueUrl is missing in response')` inside the try, which —
like a transport rejection — lands in the outer catch. -/
def gquResolve (oracle : Nat → SqsResp) (st : SqsState) (queueName : String)
    (k : Nat) : GquResult :=
  match clientSend st.client oracle k (.getQueueUrlCmd queueName) with
  | ⟨.error e, n1, log1⟩ => gquCatch oracle st queueName n1 log1 e
  | ⟨.ok resp, n1, log1⟩ =>
    match truthyUrl (respQueueUrl resp) with
    | some u => ⟨.ok u, cacheSet st queueName u, n1, log1⟩
    | none =>
      gquCatch oracle st queueName n1 log1
        (jsError "QueueUrl is missing in response")

/-- `SqsQueueService.getQueueUrl` (source lines 92–157):
`const cached = this.queueUrls.get(queueName); if (cached) return cached;`
then the try/catch resolution protocol.  Note the truthiness check: only a
non-empty cached string short-circuits. -/
def getQueueUrl (oracle : Nat → SqsResp) (st : SqsState) (queueName : String)
    (k : Nat) : GquResult :=
  match truthyUrl (mapGet st.queueUrls queueName) with
  | some cached => ⟨.ok cached, st, k, []⟩
  | none => gquResolve oracle st queueName k

/-- Result of `publish`/`subscribe` on the SQS service. -/
structure OpResult where
  result : Except JsVal OpResponse
  state : SqsState
  counter : Nat
  requests : List SqsCommand
  deriving Repr

/-- `SqsQueueService.publish` (source lines 174–186): resolve the queue
url, then send the JSON-stringified body (the already-serialized body is
the `messageBody` parameter). -/
def publish (oracle : Nat → SqsResp) (st : SqsState) (queueName : String)
    (messageBody : String) (k : Nat) : OpResult :=
  match getQueueUrl oracle st queueName k with
  | ⟨.error e, st2, k2, reqs⟩ => ⟨.error e, st2, k2, reqs⟩
  | ⟨.ok url, st2, k2, reqs⟩ =>
    match clientSend st2.client oracle k2 (.sendMessageCmd url messageBody) with
    | ⟨.error e, n, log⟩ => ⟨.error e, st2, n, reqs ++ log⟩
    | ⟨.ok _, n, log⟩ =>
      ⟨.ok ⟨"SQS publish to [" ++ queueName ++ "]"⟩, st2, n, reqs ++ log⟩

/-- `SqsQueueService.subscribe` (source lines 210–275): resolve the queue
url, launch the detached long-polling loop (`void poll()` — its receives
happen asynchronously after the call returns and are not part of the
call's own transport activity), and return the feedback message. -/
def subscribe (oracle : Nat → SqsResp) (st : SqsState) (queueName : String)
    (k : Nat) : OpResult :=
  match getQueueUrl oracle st queueName k with
  | ⟨.error e, st2, k2, reqs⟩ => ⟨.error e, st2, k2, reqs⟩
  | ⟨.ok _, st2, k2, reqs⟩ =>
    ⟨.ok ⟨"Subscribed to SQS queue [" ++ queueName ++ "] (long polling)"⟩,
      st2, k2, reqs⟩

end SqsQueueService

/-- The configuration provider boundary (`get`/`getOrThrow`). -/
structure ConfigService where
  get : String → Option String

/-- `configService.getOrThrow(key)`: throws when the key is absent. -/
def getOrThrow (cfg : ConfigService) (key : String) : Except JsVal String :=
  match cfg.get key with
  | some v => .ok v
  | none => .error (jsError ("Missing required configuration " ++ key))

/-- `createSqsClient` (source lines 22–44): reads the endpoint, region and
credentials with `getOrThrow` and builds an `SQSClient`.  The built client
is modelled by `Unit`; what matters is that building succeeds exactly when
the keys are present. -/
def createSqsClient (cfg : ConfigService) : Except JsVal Unit := do
  let _ ← getOrThrow cfg "AWS_ENDPOINT_URL"
  let _ ← getOrThrow cfg "AWS_REGION"
  let _ ← getOrThrow cfg "AWS_ACCESS_KEY_ID"
  let _ ← getOrThrow cfg "AWS_SECRET_ACCESS_KEY"
  pure ()

/-- The `SqsQueueService` constructor (source lines 69–74):
`constructor(...) { createSqsClient(this.configService); }` — the created
client is DISCARDED, `this.client` is never assigned and remains
`undefined` (`none`); the url cache starts empty. -/
def sqsConstruct (cfg : ConfigService) : Except JsVal SqsState := do
  let _ ← createSqsClient cfg
  pure ⟨none, []⟩

/-! ## Auxiliary definitions for the statements -/

/-- Invariant of the url cache: every populated locator is a non-empty
string (every write site in `getQueueUrl` is guarded by a truthiness
check on the url being cached). -/
def CacheWF (st : SqsState) : Prop :=
  ∀ n u, mapGet st.queueUrls n = some u → u ≠ ""

/-- A transport script for the provisioning race: the first send rejects
with `e`, the second with `ce`, every later one answers with a payload
whose `QueueUrl` is `u`. -/
def scriptedOracle (e ce : JsVal) (u : Option String) : Nat → SqsResp :=
  fun n => match n with
  | 0 => .throwE e
  | 1 => .throwE ce
  | _ => .urlR u

/-- Recognize a CreateQueue request in a request log. -/
def isCreateCmd : SqsCommand → Bool
  | .createQueueCmd _ _ _ => true
  | _ => false

/-! ## Helper lemmas -/

theorem mapGet_mapSet {α : Type} (m : List (String × α)) (k : String) (v : α)
    (n : String) : mapGet (mapSet m k v) n = if n = k then some v else mapGet m n := by
  induction m with
  | nil =>
    by_cases h : n = k
    · subst h; simp [mapSet, mapGet]
    · have h2 : ¬ k = n := fun hh => h hh.symm
      simp [mapSet, mapGet, h, h2]
  | cons p rest ih =>
    obtain ⟨k0, v0⟩ := p
    by_cases hk : k0 = k
    · subst hk
      simp only [mapSet, if_pos rfl, mapGet]
      by_cases hn : n = k0
      · subst hn; simp
      · have h2 : ¬ k0 = n := fun hh => hn hh.symm
        simp [hn, h2]
    · simp only [mapSet, if_neg hk, mapGet]
      by_cases hn : k0 = n
      · subst hn
        have h2 : ¬ k0 = k := hk
        simp [h2]
      · simp [hn, ih]

theorem truthyUrl_eq_some {x : Option String} {u : String}
    (h : truthyUrl x = some u) : x = some u ∧ u ≠ "" := by
  cases x with
  | none => simp [truthyUrl] at h
  | some s =>
    by_cases hs : s = ""
    · subst hs; simp [truthyUrl] at h
    · simp [truthyUrl, hs] at h
      subst h; exact ⟨rfl, hs⟩

theorem truthyUrl_of_ne {u : String} (h : u ≠ "") : truthyUrl (some u) = some u := by
  simp [truthyUrl, h]

theorem gquCreateCatch_state (oracle : Nat → SqsResp) (st : SqsState)
    (q : String) (k : Nat) (log : List SqsCommand) (ce : JsVal) :
    (SqsQueueService.gquCreateCatch oracle st q k log ce).state = st ∨
    ∃ v, v ≠ "" ∧ (SqsQueueService.gquCreateCatch oracle st q k log ce).state =
      SqsQueueService.cacheSet st q v := by
  unfold SqsQueueService.gquCreateCatch
  split
  · split
    · exact Or.inl rfl
    · split
      · next u heq => exact Or.inr ⟨u, (truthyUrl_eq_some heq).2, rfl⟩
      · exact Or.inl rfl
  · exact Or.inl rfl

theorem gquCatch_state (oracle : Nat → SqsResp) (st : SqsState)
    (q : String) (k : Nat) (log : List SqsCommand) (e : JsVal) :
    (SqsQueueService.gquCatch oracle st q k log e).state = st ∨
    ∃ v, v ≠ "" ∧ (SqsQueueService.gquCatch oracle st q k log e).state =
      SqsQueueService.cacheSet st q v := by
  unfold SqsQueueService.gquCatch
  split
  · exact Or.inl rfl
  · exact Or.inl rfl
  · split
    · exact gquCreateCatch_state ..
    · split
      · next u heq => exact Or.inr ⟨u, (truthyUrl_eq_some heq).2, rfl⟩
      · exact gquCreateCatch_state ..

theorem gquResolve_state (oracle : Nat → SqsResp) (st : SqsState)
    (q : String) (k : Nat) :
    (SqsQueueService.gquResolve oracle st q k).state = st ∨
    ∃ v, v ≠ "" ∧ (SqsQueueService.gquResolve oracle st q k).state =
      SqsQueueService.cacheSet st q v := by
  unfold SqsQueueService.gquResolve
  split
  · exact gquCatch_state ..
  · split
    · next u heq => exact Or.inr ⟨u, (truthyUrl_eq_some heq).2, rfl⟩
    · exact gquCatch_state ..

theorem getQueueUrl_state (oracle : Nat → SqsResp) (st : SqsState)
    (q : String) (k : Nat) :
    (SqsQueueService.getQueueUrl oracle st q k).state = st ∨
    (truthyUrl (mapGet st.queueUrls q) = none ∧
      ∃ v, v ≠ "" ∧ (SqsQueueService.getQueueUrl oracle st q k).state =
        SqsQueueService.cacheSet st q v) := by
  unfold SqsQueueService.getQueueUrl
  split
  · exact Or.inl rfl
  · next hcache =>
    rcases gquResolve_state oracle st q k with h | ⟨v, hv, h⟩
    · exact Or.inl h
    · exact Or.inr ⟨hcache, v, hv, h⟩

theorem getQueueUrl_preserves_entry (oracle : Nat → SqsResp) (st : SqsState)
    (q name url : String) (k : Nat)
    (h : mapGet st.queueUrls name = some url) (hu : url ≠ "") :
    mapGet (SqsQueueService.getQueueUrl oracle st q k).state.queueUrls name = some url := by
  rcases getQueueUrl_state oracle st q k with hs | ⟨hmiss, v, hv, hs⟩
  · rw [hs]; exact h
  · rw [hs]
    show mapGet (mapSet st.queueUrls q v) name = some url
    rw [mapGet_mapSet]
    by_cases hnq : name = q
    · subst hnq
      rw [h, truthyUrl_of_ne hu] at hmiss
      exact absurd hmiss (by simp)
    · simp [hnq, h]

theorem getQueueUrl_CacheWF (oracle : Nat → SqsResp) (st : SqsState)
    (q : String) (k : Nat) (hwf : CacheWF st) :
    CacheWF (SqsQueueService.getQueueUrl oracle st q k).state := by
  rcases getQueueUrl_state oracle st q k with hs | ⟨_, v, hv, hs⟩
  · rw [hs]; exact hwf
  · rw [hs]
    intro n u hn
    rw [show (SqsQueueService.cacheSet st q v).queueUrls = mapSet st.queueUrls q v from rfl,
      mapGet_mapSet] at hn
    by_cases hnq : n = q
    · simp [hnq] at hn; exact hn ▸ hv
    · simp [hnq] at hn; exact hwf n u hn

/-! ### Step lemmas for the resolution protocol -/

theorem getQueueUrl_cache_miss (oracle : Nat → SqsResp) (st : SqsState)
    (q : String) (k : Nat) (h : mapGet st.queueUrls q = none) :
    SqsQueueService.getQueueUrl oracle st q k = SqsQueueService.gquResolve oracle st q k := by
  unfold SqsQueueService.getQueueUrl
  rw [h]
  rfl

theorem getQueueUrl_cache_hit (oracle : Nat → SqsResp) (st : SqsState)
    (q u : String) (k : Nat) (h : mapGet st.queueUrls q = some u) (hu : u ≠ "") :
    SqsQueueService.getQueueUrl oracle st q k = ⟨.ok u, st, k, []⟩ := by
  unfold SqsQueueService.getQueueUrl
  rw [h, truthyUrl_of_ne hu]

theorem gquResolve_noclient (oracle : Nat → SqsResp) (st : SqsState)
    (q : String) (k : Nat) (hcl : st.client = none) :
    SqsQueueService.gquResolve oracle st q k =
      SqsQueueService.gquCatch oracle st q k [] typeErrorUndefinedSend := by
  unfold SqsQueueService.gquResolve clientSend
  rw [hcl]

theorem gquResolve_throw (oracle : Nat → SqsResp) (st : SqsState)
    (q : String) (k : Nat) (e : JsVal) (hcl : st.client = some ())
    (h0 : oracle k = .throwE e) :
    SqsQueueService.gquResolve oracle st q k =
      SqsQueueService.gquCatch oracle st q (k + 1) [.getQueueUrlCmd q] e := by
  unfold SqsQueueService.gquResolve clientSend
  rw [hcl, h0]

theorem gquCatch_not_missing (oracle : Nat → SqsResp) (st : SqsState)
    (q : String) (k : Nat) (log : List SqsCommand) (e : JsVal)
    (hm : isQueueMissing e = .ok false) :
    SqsQueueService.gquCatch oracle st q k log e = ⟨.error e, st, k, log⟩ := by
  unfold SqsQueueService.gquCatch
  rw [hm]

theorem gquCatch_missing_create_throw (oracle : Nat → SqsResp) (st : SqsState)
    (q : String) (k : Nat) (log : List SqsCommand) (e ce : JsVal)
    (hm : isQueueMissing e = .ok true) (hcl : st.client = some ())
    (h1 : oracle k = .throwE ce) :
    SqsQueueService.gquCatch oracle st q k log e =
      SqsQueueService.gquCreateCatch oracle st q (k + 1)
        (log ++ [.createQueueCmd q "60" "345600"]) ce := by
  unfold SqsQueueService.gquCatch clientSend
  rw [hm, hcl, h1]

theorem gquCreateCatch_exists_reresolved (oracle : Nat → SqsResp) (st : SqsState)
    (q : String) (k : Nat) (log : List SqsCommand) (ce : JsVal) (u : String)
    (hn : jsSafeName ce = some "QueueAlreadyExists") (hcl : st.client = some ())
    (h2 : oracle k = .urlR (some u)) (hu : u ≠ "") :
    SqsQueueService.gquCreateCatch oracle st q k log ce =
      ⟨.ok u, SqsQueueService.cacheSet st q u, k + 1, log ++ [.getQueueUrlCmd q]⟩ := by
  unfold SqsQueueService.gquCreateCatch clientSend
  rw [hn, if_pos rfl, hcl, h2]
  simp only [respQueueUrl]
  rw [truthyUrl_of_ne hu]

theorem gquCreateCatch_exists_no_url (oracle : Nat → SqsResp) (st : SqsState)
    (q : String) (k : Nat) (log : List SqsCommand) (ce : JsVal)
    (hn : jsSafeName ce = some "QueueAlreadyExists") (hcl : st.client = some ())
    (h2 : oracle k = .urlR none) :
    SqsQueueService.gquCreateCatch oracle st q k log ce =
      ⟨.error ce, st, k + 1, log ++ [.getQueueUrlCmd q]⟩ := by
  unfold SqsQueueService.gquCreateCatch clientSend
  rw [hn, if_pos rfl, hcl, h2]
  rfl

theorem gquCreateCatch_other (oracle : Nat → SqsResp) (st : SqsState)
    (q : String) (k : Nat) (log : List SqsCommand) (ce : JsVal)
    (hn : ¬ jsSafeName ce = some "QueueAlreadyExists") :
    SqsQueueService.gquCreateCatch oracle st q k log ce = ⟨.error ce, st, k, log⟩ := by
  unfold SqsQueueService.gquCreateCatch
  rw [if_neg hn]

theorem publish_state (oracle : Nat → SqsResp) (st : SqsState)
    (q body : String) (k : Nat) :
    (SqsQueueService.publish oracle st q body k).state =
      (SqsQueueService.getQueueUrl oracle st q k).state := by
  unfold SqsQueueService.publish
  split
  · next e st2 k2 reqs heq => rw [heq]
  · next url st2 k2 reqs heq =>
    split
    · next e n log heq2 => rw [heq]
    · next r n log heq2 => rw [heq]

theorem subscribe_state (oracle : Nat → SqsResp) (st : SqsState)
    (q : String) (k : Nat) :
    (SqsQueueService.subscribe oracle st q k).state =
      (SqsQueueService.getQueueUrl oracle st q k).state := by
  unfold SqsQueueService.subscribe
  split
  · next e st2 k2 reqs heq => rw [heq]
  · next url st2 k2 reqs heq => rw [heq]

theorem sqsConstruct_ok (cfg : ConfigService) (st : SqsState)
    (h : sqsConstruct cfg = .ok st) : st = ⟨none, []⟩ := by
  unfold sqsConstruct at h
  cases hc : createSqsClient cfg with
  | error e =>
    rw [hc] at h
    simp [Bind.bind, Except.bind] at h
  | ok u =>
    rw [hc] at h
    simp only [Bind.bind, Except.bind, pure, Except.pure, Except.ok.injEq] at h
    exact h.symm

/-! ## Claim theorems -/

/-- C2, counterexample: an error whose ONLY distinguishing feature is a
400 metadata status — no matching name, no matching `Code`, no message —
IS classified as queue-missing by `isQueueMissing`, because the source
treats `error?.$metadata?.httpStatusCode === 400` as a standalone
disjunct, not as merely corroborating evidence. -/
theorem isQueueMissing_sole_400_classified :
    isQueueMissing (.obj ⟨none, none, none, none, some ⟨some 400⟩⟩) = .ok true := rfl

/-- C2, amended: on any error-shaped object the queue-missing classifier
returns true exactly when the declared kind is `QueueDoesNotExist`, or the
backend code is the non-existent-queue code, or the message mentions
"does not exist", or the metadata status is EXACTLY 400 — the 400 status
alone suffices, and any other 4xx status (e.g. 403) contributes nothing. -/
theorem isQueueMissing_characterization :
    (∀ o : ErrObj, isQueueMissing (.obj o) = .ok true ↔
      (o.name = some "QueueDoesNotExist" ∨
       o.Code = some "AWS.SimpleQueueService.NonExistentQueue" ∨
       optIncludes o.message "does not exist" = true ∨
       jsGetMetaStatus (.obj o) = some 400)) ∧
    isQueueMissing (.obj ⟨none, none, none, none, some ⟨some 403⟩⟩) = .ok false := by
  constructor
  · intro o
    show Except.ok (o.name == some "QueueDoesNotExist" ||
      o.Code == some "AWS.SimpleQueueService.NonExistentQueue" ||
      optIncludes o.message "does not exist" ||
      jsGetMetaStatus (.obj o) == some 400) = .ok true ↔ _
    simp [Bool.or_eq_true, or_assoc]
  · rfl

/-- C2 witness: the characterization evaluated at an error carrying only
the `QueueDoesNotExist` name. -/
theorem isQueueMissing_characterization_witness :
    isQueueMissing (.obj ⟨some "QueueDoesNotExist", none, none, none, none⟩) = .ok true :=
  (isQueueMissing_characterization.1 ⟨some "QueueDoesNotExist", none, none, none, none⟩).mpr
    (Or.inl rfl)

/-- C3, code bug: both classifiers THROW (`TypeError` reading `.name`) on
`null` and `undefined` inputs, contrary to the claim and to the source's
own doc comments ("intentionally defensive (safe property access)", "may
be any type"); on every object or primitive input they do return a
boolean. -/
theorem classifiers_throw_on_null :
    isTimoutError .jsNull = .error () ∧
    isTimoutError .jsUndefined = .error () ∧
    isQueueMissing .jsNull = .error () ∧
    isQueueMissing .jsUndefined = .error () ∧
    (∀ o : ErrObj, isTimoutError (.obj o) = .ok (isTimoutError (.obj o)).toOption.get!) ∧
    (∀ o : ErrObj, ∃ b, isQueueMissing (.obj o) = .ok b) ∧
    (∀ s : String, ∃ b, isTimoutError (.prim s) = .ok b) ∧
    (∀ s : String, ∃ b, isQueueMissing (.prim s) = .ok b) :=
  ⟨rfl, rfl, rfl, rfl, fun _ => rfl, fun _ => ⟨_, rfl⟩, fun _ => ⟨_, rfl⟩, fun _ => ⟨_, rfl⟩⟩

/-- C4, counterexample: a delivery whose body does not parse is routed to
the catch block — it is negatively acknowledged without requeue and the
handler is NEVER invoked (not with a raw value, not at all), because
`JSON.parse` runs inside the try before the handler call. -/
theorem consume_malformed_not_invoked :
    consumeCallback (fun s => if s = "{}" then some s else none) (fun _ => true)
      (some "not-json") = ⟨some .nackNoRequeue, none⟩ := rfl

/-- C4, amended: for every delivery of the broker backend subscription,
a non-parseable body leads to nack-without-requeue with the handler not
invoked; a parseable body is passed to the handler, whose success acks
and whose failure nacks; a null delivery is ignored. -/
theorem consume_callback_behaviour :
    ∀ (α : Type) (parse : String → Option α) (handler : α → Bool) (body : String),
      (parse body = none →
        consumeCallback parse handler (some body) = ⟨some .nackNoRequeue, none⟩) ∧
      (∀ v, parse body = some v →
        consumeCallback parse handler (some body) =
          ⟨some (if handler v then .ack else .nackNoRequeue), some v⟩) ∧
      consumeCallback parse handler none = ⟨none, none⟩ := by
  intro α parse handler body
  refine ⟨fun h => ?_, fun v h => ?_, rfl⟩
  · simp [consumeCallback, h]
  · by_cases hb : handler v <;> simp [consumeCallback, h, hb]

/-- C4 witness: the amended behaviour at a concrete non-parseable body. -/
theorem consume_callback_behaviour_witness :
    (fun s => if s = "{}" then (some s : Option String) else none) "oops" = none ∧
    consumeCallback (fun s => if s = "{}" then (some s : Option String) else none)
      (fun _ => true) (some "oops") = ⟨some .nackNoRequeue, none⟩ :=
  ⟨rfl, (consume_callback_behaviour String _ _ "oops").1 rfl⟩

/-- C5, code bug: the controller of src/queue/queue.controller.ts returns
the service promise from inside `try` WITHOUT awaiting it, so a rejected
promise bypasses the catch entirely: a non-HTTP backend error escapes the
endpoint unchanged instead of being converted to the generic
`InternalServerErrorException` — the conversion the claim describes, which
the awaited variant controller (src/unnamed/part_002) and the repository's
own tests (src/unnamed/part_005) implement and pin down. -/
theorem controller_unawaited_rejection_escapes :
    publishMessage (asyncCall (.error (.plain "Error" "Unexpected error"))) =
      .error (.plain "Error" "Unexpected error") ∧
    subscribeToQueue (asyncCall (.error (.plain "Error" "Unexpected error"))) =
      .error (.plain "Error" "Unexpected error") ∧
    (∀ r : Except SvcError OpResponse, publishMessage (asyncCall r) = r) ∧
    (∀ r : Except SvcError OpResponse, subscribeToQueue (asyncCall r) = r) ∧
    publishMessageAwaited (asyncCall (.error (.plain "Error" "Unexpected error"))) =
      .error (.httpException 500 "Failed to publish message to queue") ∧
    subscribeToQueueAwaited (asyncCall (.error (.plain "Error" "Unexpected error"))) =
      .error (.httpException 500 "Failed to subscribe to queue") :=
  ⟨rfl, rfl, fun _ => rfl, fun _ => rfl, rfl, rfl⟩

/-- C7: publishing on a queue name never subscribed on the memory backend
fails with the no-subscribers error (`NotFoundException`, HTTP 404,
"Queue not found"), performs no handler invocation, and leaves the
subscribers map unchanged. -/
theorem memory_publish_no_subscribers :
    ∀ (μ : Type) (st : MemoryState) (queueName : String) (message : μ)
      (outcome : Nat → Bool),
      mapGet st.subscribers queueName = none →
      memPublish st queueName message outcome =
        ⟨.error (.httpException 404 "Queue not found"), st, []⟩ := by
  intro μ st q m oc h
  simp [memPublish, h]

/-- C7 witness: a fresh memory backend and the queue "unknown-queue". -/
theorem memory_publish_no_subscribers_witness :
    mapGet MemoryState.init.subscribers "unknown-queue" = none ∧
    memPublish MemoryState.init "unknown-queue" "m" (fun _ => true) =
      ⟨.error (.httpException 404 "Queue not found"), MemoryState.init, []⟩ :=
  ⟨rfl, memory_publish_no_subscribers String MemoryState.init "unknown-queue" "m"
    (fun _ => true) rfl⟩

/-- C8: with N ≥ 1 registered handlers, memory publish returns success,
invokes ALL N handlers in registration order, each with the exact
published value; the result, the state and the set of invoked handlers
are independent of which handlers fail; and subscribe appends at the end
of the registration order. -/
theorem memory_publish_all_handlers :
    ∀ (μ : Type) (st : MemoryState) (q : String) (m : μ) (hs : List Nat)
      (outcome outcome2 : Nat → Bool),
      mapGet st.subscribers q = some hs → hs ≠ [] →
      (memPublish st q m outcome).result = .ok ⟨"Message published in queue"⟩ ∧
      (memPublish st q m outcome).state = st ∧
      (memPublish st q m outcome).invocations = hs.map (fun h => ⟨h, m, outcome h⟩) ∧
      ((memPublish st q m outcome).invocations.map fun i => (i.handler, i.arg)) =
        hs.map (fun h => (h, m)) ∧
      (memPublish st q m outcome).result = (memPublish st q m outcome2).result ∧
      (∀ hnew, mapGet (memSubscribe st q hnew).2.subscribers q = some (hs ++ [hnew])) := by
  intro μ st q m hs outcome outcome2 h hne
  have hlen : ¬ hs.length = 0 := by simpa [List.length_eq_zero] using hne
  refine ⟨?_, ?_, ?_, ?_, ?_, ?_⟩
  · simp [memPublish, h, hlen]
  · simp [memPublish, h, hlen]
  · simp [memPublish, h, hlen]
  · simp [memPublish, h, hlen, List.map_map, Function.comp]
  · simp [memPublish, h, hlen]
  · intro hnew
    simp [memSubscribe, h, mapGet_mapSet]

/-- C8 witness: two handlers on "orders", the first resolving and the
second rejecting; both are invoked, in order, with the published value. -/
theorem memory_publish_all_handlers_witness :
    mapGet (MemoryState.mk [("orders", [7, 8])]).subscribers "orders" = some [7, 8] ∧
    (memPublish (MemoryState.mk [("orders", [7, 8])]) "orders" "v"
      (fun h => decide (h = 7))).invocations =
      [⟨7, "v", true⟩, ⟨8, "v", false⟩] ∧
    (memPublish (MemoryState.mk [("orders", [7, 8])]) "orders" "v"
      (fun h => decide (h = 7))).result = .ok ⟨"Message published in queue"⟩ := by
  have H := memory_publish_all_handlers String (MemoryState.mk [("orders", [7, 8])])
    "orders" "v" [7, 8] (fun h => decide (h = 7)) (fun _ => false) rfl (by decide)
  exact ⟨rfl, by rw [H.2.2.1]; rfl, H.1⟩

/-- C10: the backend selector is a total function of the configured
provider value: absence, the empty string, and every unrecognized name
select the memory backend; (case-folded) "sqs" selects the SQS backend and
"rabbitmq" the RabbitMQ backend; exactly one backend results for every
input; and the two factory variants in the repository agree everywhere. -/
theorem backend_selector_total :
    (∀ v : Option String, selectBackend v = selectBackendValidated v) ∧
    selectBackend none = .memory ∧
    selectBackend (some "") = .memory ∧
    (∀ s : String, jsToLower s = "sqs" → selectBackend (some s) = .sqs) ∧
    (∀ s : String, jsToLower s = "rabbitmq" → selectBackend (some s) = .rabbit) ∧
    (∀ s : String, jsToLower s ≠ "sqs" → jsToLower s ≠ "rabbitmq" →
      selectBackend (some s) = .memory) ∧
    (∀ v : Option String,
      selectBackend v = .sqs ∨ selectBackend v = .rabbit ∨ selectBackend v = .memory) := by
  refine ⟨?_, rfl, rfl, ?_, ?_, ?_, ?_⟩
  · intro v
    cases v with
    | none => rfl
    | some s =>
      by_cases h1 : jsToLower s = "sqs"
      · simp [selectBackend, selectBackendValidated, validateAndGetQueueProvider, h1]
      · by_cases h2 : jsToLower s = "rabbitmq"
        · simp [selectBackend, selectBackendValidated, validateAndGetQueueProvider, h1, h2]
        · simp [selectBackend, selectBackendValidated, validateAndGetQueueProvider, h1, h2]
  · intro s h; simp [selectBackend, h]
  · intro s h
    have : jsToLower s ≠ "sqs" := by rw [h]; decide
    simp [selectBackend, h, this]
  · intro s h1 h2; simp [selectBackend, h1, h2]
  · intro v
    cases v with
    | none => exact Or.inr (Or.inr rfl)
    | some s =>
      by_cases h1 : jsToLower s = "sqs"
      · exact Or.inl (by simp [selectBackend, h1])
      · by_cases h2 : jsToLower s = "rabbitmq"
        · refine Or.inr (Or.inl ?_)
          have : jsToLower s ≠ "sqs" := h1
          simp [selectBackend, h2, this]
        · exact Or.inr (Or.inr (by simp [selectBackend, h1, h2]))

/-- C10 witness: the selector at the concrete value "SQS". -/
theorem backend_selector_total_witness :
    jsToLower "SQS" = "sqs" ∧ selectBackend (some "SQS") = .sqs :=
  ⟨rfl, backend_selector_total.2.2.2.1 "SQS" rfl⟩

/-- C1, code bug: the constructor computes `createSqsClient` but discards
its result (source line 73), so `this.client` stays undefined on every
successfully constructed service; consequently every `publish` and every
`subscribe`, on every queue name, fails with the `TypeError` raised by
dereferencing the undefined client — re-thrown by the catch since
`isQueueMissing` does not classify it — and issues NO transport request. -/
theorem sqs_uninitialized_client :
    ∀ (cfg : ConfigService) (st : SqsState),
      sqsConstruct cfg = .ok st →
      st.client = none ∧
      ∀ (oracle : Nat → SqsResp) (queueName messageBody : String) (k : Nat),
        (SqsQueueService.publish oracle st queueName messageBody k).result =
          .error typeErrorUndefinedSend ∧
        (SqsQueueService.publish oracle st queueName messageBody k).requests = [] ∧
        (SqsQueueService.subscribe oracle st queueName k).result =
          .error typeErrorUndefinedSend ∧
        (SqsQueueService.subscribe oracle st queueName k).requests = [] := by
  intro cfg st h
  have hst := sqsConstruct_ok cfg st h
  subst hst
  refine ⟨rfl, fun oracle q body k => ?_⟩
  have hg : SqsQueueService.getQueueUrl oracle ⟨none, []⟩ q k =
      ⟨.error typeErrorUndefinedSend, ⟨none, []⟩, k, []⟩ := by
    rw [getQueueUrl_cache_miss oracle ⟨none, []⟩ q k rfl,
      gquResolve_noclient oracle ⟨none, []⟩ q k rfl,
      gquCatch_not_missing oracle ⟨none, []⟩ q k [] typeErrorUndefinedSend rfl]
  have hp : SqsQueueService.publish oracle ⟨none, []⟩ q body k =
      ⟨.error typeErrorUndefinedSend, ⟨none, []⟩, k, []⟩ := by
    unfold SqsQueueService.publish
    rw [hg]
  have hs : SqsQueueService.subscribe oracle ⟨none, []⟩ q k =
      ⟨.error typeErrorUndefinedSend, ⟨none, []⟩, k, []⟩ := by
    unfold SqsQueueService.subscribe
    rw [hg]
  exact ⟨by rw [hp], by rw [hp], by rw [hs], by rw [hs]⟩

/-- C1 witness: a configuration carrying every key constructs the service,
and a publish on "orders" fails with the TypeError having issued nothing. -/
theorem sqs_uninitialized_client_witness :
    sqsConstruct ⟨fun _ => some "test"⟩ = .ok ⟨none, []⟩ ∧
    (SqsQueueService.publish (fun _ => .sendOk) ⟨none, []⟩ "orders" "body" 0).result =
      .error typeErrorUndefinedSend ∧
    (SqsQueueService.publish (fun _ => .sendOk) ⟨none, []⟩ "orders" "body" 0).requests = [] := by
  have H := sqs_uninitialized_client ⟨fun _ => some "test"⟩ ⟨none, []⟩ rfl
  exact ⟨rfl, (H.2 (fun _ => .sendOk) "orders" "body" 0).1,
    (H.2 (fun _ => .sendOk) "orders" "body" 0).2.1⟩

/-- C6: queue resolution is race-safe — when the initial lookup fails with
a queue-missing-classified error and the creation then fails with
`QueueAlreadyExists` (the concurrent-creation race), `getQueueUrl`
re-resolves by name, caches the locator and returns it, with exactly one
CreateQueue request issued; a subsequent caller on the resolved state gets
the same locator from the cache with no transport traffic; if the
re-resolution yields no url the creation error propagates; and any
creation failure not named `QueueAlreadyExists` propagates unchanged. -/
theorem sqs_getQueueUrl_race_safe :
    ∀ (st : SqsState) (q : String) (e ce : JsVal) (url : String),
      st.client = some () →
      mapGet st.queueUrls q = none →
      isQueueMissing e = .ok true →
      jsSafeName ce = some "QueueAlreadyExists" →
      url ≠ "" →
      SqsQueueService.getQueueUrl (scriptedOracle e ce (some url)) st q 0 =
        ⟨.ok url, SqsQueueService.cacheSet st q url, 3,
          [.getQueueUrlCmd q, .createQueueCmd q "60" "345600", .getQueueUrlCmd q]⟩ ∧
      mapGet (SqsQueueService.cacheSet st q url).queueUrls q = some url ∧
      ((SqsQueueService.getQueueUrl (scriptedOracle e ce (some url)) st q 0).requests.filter
        isCreateCmd).length = 1 ∧
      (∀ (oracle2 : Nat → SqsResp) (k2 : Nat),
        SqsQueueService.getQueueUrl oracle2 (SqsQueueService.cacheSet st q url) q k2 =
          ⟨.ok url, SqsQueueService.cacheSet st q url, k2, []⟩) ∧
      (SqsQueueService.getQueueUrl (scriptedOracle e ce none) st q 0).result = .error ce ∧
      (∀ ce2, ¬ jsSafeName ce2 = some "QueueAlreadyExists" →
        (SqsQueueService.getQueueUrl (scriptedOracle e ce2 (some url)) st q 0).result =
          .error ce2) := by
  intro st q e ce url hcl hcache hm hn hu
  have hcget : mapGet (SqsQueueService.cacheSet st q url).queueUrls q = some url := by
    show mapGet (mapSet st.queueUrls q url) q = some url
    rw [mapGet_mapSet]
    simp
  have step : ∀ (ce3 : JsVal) (u : Option String),
      SqsQueueService.getQueueUrl (scriptedOracle e ce3 u) st q 0 =
        SqsQueueService.gquCreateCatch (scriptedOracle e ce3 u) st q 2
          [.getQueueUrlCmd q, .createQueueCmd q "60" "345600"] ce3 := by
    intro ce3 u
    rw [getQueueUrl_cache_miss (scriptedOracle e ce3 u) st q 0 hcache,
      gquResolve_throw (scriptedOracle e ce3 u) st q 0 e hcl rfl,
      gquCatch_missing_create_throw (scriptedOracle e ce3 u) st q 1
        [.getQueueUrlCmd q] e ce3 hm hcl rfl]
    rfl
  have hrace : SqsQueueService.getQueueUrl (scriptedOracle e ce (some url)) st q 0 =
      ⟨.ok url, SqsQueueService.cacheSet st q url, 3,
        [.getQueueUrlCmd q, .createQueueCmd q "60" "345600", .getQueueUrlCmd q]⟩ := by
    rw [step ce (some url),
      gquCreateCatch_exists_reresolved (scriptedOracle e ce (some url)) st q 2
        [.getQueueUrlCmd q, .createQueueCmd q "60" "345600"] ce url hn hcl rfl hu]
    rfl
  refine ⟨hrace, hcget, by rw [hrace]; rfl, ?_, ?_, ?_⟩
  · intro oracle2 k2
    exact getQueueUrl_cache_hit oracle2 (SqsQueueService.cacheSet st q url) q url k2 hcget hu
  · rw [step ce none,
      gquCreateCatch_exists_no_url (scriptedOracle e ce none) st q 2
        [.getQueueUrlCmd q, .createQueueCmd q "60" "345600"] ce hn hcl rfl]
  · intro ce2 hn2
    rw [step ce2 (some url),
      gquCreateCatch_other (scriptedOracle e ce2 (some url)) st q 2
        [.getQueueUrlCmd q, .createQueueCmd q "60" "345600"] ce2 hn2]

/-- C6 witness: the race at concrete errors and the queue "orders". -/
theorem sqs_getQueueUrl_race_safe_witness :
    (SqsQueueService.getQueueUrl
      (scriptedOracle (.obj ⟨some "QueueDoesNotExist", none, none, none, none⟩)
        (.obj ⟨some "QueueAlreadyExists", none, none, none, none⟩)
        (some "http://q/orders"))
      ⟨some (), []⟩ "orders" 0).result = .ok "http://q/orders" ∧
    ((SqsQueueService.getQueueUrl
      (scriptedOracle (.obj ⟨some "QueueDoesNotExist", none, none, none, none⟩)
        (.obj ⟨some "QueueAlreadyExists", none, none, none, none⟩)
        (some "http://q/orders"))
      ⟨some (), []⟩ "orders" 0).requests.filter isCreateCmd).length = 1 := by
  have H := sqs_getQueueUrl_race_safe ⟨some (), []⟩ "orders"
    (.obj ⟨some "QueueDoesNotExist", none, none, none, none⟩)
    (.obj ⟨some "QueueAlreadyExists", none, none, none, none⟩)
    "http://q/orders" rfl rfl rfl rfl (by decide)
  exact ⟨by rw [H.1], H.2.2.1⟩

/-- C9: the url cache is monotone and stable — a populated entry makes
every later resolution of that name return the cached locator with no
transport call and unchanged state; no `getQueueUrl`, `publish` or
`subscribe` on ANY name ever removes or replaces the entry; the
truthiness invariant backing this (cached urls are never empty) is
preserved by every operation and holds from construction. -/
theorem sqs_cache_monotone_stable :
    ∀ (oracle : Nat → SqsResp) (st : SqsState) (name url : String) (k : Nat),
      CacheWF st →
      mapGet st.queueUrls name = some url →
      SqsQueueService.getQueueUrl oracle st name k = ⟨.ok url, st, k, []⟩ ∧
      (∀ (q : String) (k2 : Nat),
        mapGet (SqsQueueService.getQueueUrl oracle st q k2).state.queueUrls name = some url) ∧
      (∀ (q body : String) (k2 : Nat),
        mapGet (SqsQueueService.publish oracle st q body k2).state.queueUrls name = some url) ∧
      (∀ (q : String) (k2 : Nat),
        mapGet (SqsQueueService.subscribe oracle st q k2).state.queueUrls name = some url) ∧
      (∀ (q : String) (k2 : Nat),
        CacheWF (SqsQueueService.getQueueUrl oracle st q k2).state) ∧
      (∀ (cfg : ConfigService) (st0 : SqsState), sqsConstruct cfg = .ok st0 → CacheWF st0) := by
  intro oracle st name url k hwf h
  have hu : url ≠ "" := hwf name url h
  refine ⟨getQueueUrl_cache_hit oracle st name url k h hu, ?_, ?_, ?_, ?_, ?_⟩
  · intro q k2
    exact getQueueUrl_preserves_entry oracle st q name url k2 h hu
  · intro q body k2
    rw [publish_state]
    exact getQueueUrl_preserves_entry oracle st q name url k2 h hu
  · intro q k2
    rw [subscribe_state]
    exact getQueueUrl_preserves_entry oracle st q name url k2 h hu
  · intro q k2
    exact getQueueUrl_CacheWF oracle st q k2 hwf
  · intro cfg st0 h0
    rw [sqsConstruct_ok cfg st0 h0]
    intro n u hn
    exact absurd hn (by simp [mapGet])

/-- C9 witness: a state with "orders" cached; resolution returns the
cached locator untouched and a publish on another name preserves it. -/
theorem sqs_cache_monotone_stable_witness :
    SqsQueueService.getQueueUrl (fun _ => .sendOk)
      ⟨some (), [("orders", "http://u")]⟩ "orders" 5 =
      ⟨.ok "http://u", ⟨some (), [("orders", "http://u")]⟩, 5, []⟩ ∧
    mapGet (SqsQueueService.publish (fun _ => .sendOk)
      ⟨some (), [("orders", "http://u")]⟩ "payments" "b" 0).state.queueUrls "orders" =
      some "http://u" := by
  have hwf : CacheWF ⟨some (), [("orders", "http://u")]⟩ := by
    intro n u hn
    unfold mapGet at hn
    split at hn
    · injection hn with h2
      subst h2
      decide
    · exact absurd hn (by simp [mapGet])
  have H := sqs_cache_monotone_stable (fun _ => .sendOk)
    ⟨some (), [("orders", "http://u")]⟩ "orders" "http://u" 5 hwf rfl
  exact ⟨H.1, H.2.2.1 "payments" "b" 0⟩

end QueueApi
